import Mathlib

/-! Verification of the sandboxed code-execution control plane
(`python-agent-sandbox`): a shallow embedding of the path-safety layer
(`src/api/files.py`), the volume registry and container runner
(`src/core/docker_runner.py`), the chart script builder
(`src/core/scripting.py`), and the directory-listing parser
(`src/api/files.py`), together with theorems settling the specification
claims about them.

Conventions of the embedding:
* fallible Python code is modelled with `Except`; an uncaught Python
  exception is an `Except.error`;
* the container engine (docker) is modelled as an oracle record giving the
  outcome of each engine call the code makes; quantifying over the oracle
  quantifies over all engine behaviours;
* strings keep the exact literals of the source, except that the single
  quotation marks Python puts around interpolated values inside error
  details are elided (they play no role in any claim).
-/

namespace Sandbox

/-- An HTTP error as raised by `fastapi.HTTPException`: a status code and a
detail string. -/
structure HTTPError where
  status : Nat
  detail : String
deriving DecidableEq, Repr

/-- Embeds the constant `WORKSPACE_DIR_INSIDE_CONTAINER = "/workspace"` from
`src/core/docker_runner.py` line 21. -/
def WORKSPACE_DIR_INSIDE_CONTAINER : String := "/workspace"

/-! Section: PurePosixPath model

`pathlib.PurePosixPath` parses a path string into a root flag and a list of
segments, dropping empty segments and single-dot segments and keeping
double-dot segments.  Joining with an absolute path replaces the whole path;
`p.parents` is the list of strict lexical ancestors of `p`.
-/

/-- A parsed POSIX path: whether it is absolute, and its segments (with ""
and "." segments already dropped, as `pathlib` does on parsing). -/
structure PurePosixPath where
  absolute : Bool
  segments : List String
deriving DecidableEq, Repr

/-- Parse a path string the way `pathlib.PurePosixPath` does: a leading
slash makes it absolute; empty and single-dot segments are dropped. -/
def PurePosixPath.ofString (s : String) : PurePosixPath :=
  { absolute := s.startsWith "/"
    segments := (s.splitOn "/").filter (fun seg => seg ≠ "" && seg ≠ ".") }

/-- The `/` join of `pathlib`: if the right operand is absolute it replaces
the left one, otherwise the segments are appended. -/
def PurePosixPath.join (p q : PurePosixPath) : PurePosixPath :=
  if q.absolute then q else { absolute := p.absolute, segments := p.segments ++ q.segments }

/-- The `parents` property of `pathlib`: every strict prefix of the
segment list, with the same root. -/
def PurePosixPath.parents (p : PurePosixPath) : List PurePosixPath :=
  (List.range p.segments.length).map (fun i => { absolute := p.absolute, segments := p.segments.take i })

/-- A Python-level exception inside `validate_and_resolve_path`: either the
`AttributeError` from calling a missing method, or the `HTTPException` the
function itself raises. -/
inductive PyExc where
  | attributeError (msg : String)
  | httpException (e : HTTPError)
deriving DecidableEq, Repr

/-- The class `pathlib.PurePosixPath` has no `resolve` method: `resolve` is
defined only on the concrete `pathlib.Path` classes.  The attribute lookup
`(base_workspace / user_path).resolve` performed by
`src/api/files.py` line 46 is therefore modelled as an absent method. -/
def purePosixPathResolveAttr : Option (PurePosixPath → PurePosixPath) := none

/-- Embeds `validate_and_resolve_path` from `src/api/files.py` lines 24-65.

The body: empty `user_path` is replaced by "."; the user path is joined to
the workspace base as a `PurePosixPath` and `.resolve()` is called on the
result; the resolved path must have the base among its `parents` or equal
it, otherwise an HTTP 400 access-denied exception is raised inside the
`try`.  Every exception of the body - including the `AttributeError` from
the missing `resolve` method and the access-denied `HTTPException` itself -
is caught by the trailing `except Exception` and mapped to an HTTP 400
format-or-resolution error. -/
def validate_and_resolve_path (session_id user_path : String) : Except HTTPError PurePosixPath :=
  let up := if user_path = "" then "." else user_path
  let base := PurePosixPath.ofString WORKSPACE_DIR_INSIDE_CONTAINER
  let body : Except PyExc PurePosixPath :=
    match purePosixPathResolveAttr with
    | none => .error (.attributeError "PurePosixPath object has no attribute resolve")
    | some res =>
        let p := res (base.join (PurePosixPath.ofString up))
        if base ∈ p.parents ∨ p = base then
          .ok p
        else
          .error (.httpException
            ⟨400, "Invalid path: Access denied outside workspace for path " ++ up ++ "."⟩)
  match session_id, body with
  | _, .ok p => .ok p
  | _, .error _ => .error ⟨400, "Invalid path format or resolution error for " ++ up ++ "."⟩

/-! Section: volume-name sanitization (`src/core/docker_runner.py` lines 36-41) -/

/-- The character class `[a-zA-Z0-9_\-.]` of the sanitizing regular
expression in `sanitize_for_volume_name`. -/
def isVolumeNameChar (c : Char) : Bool :=
  (('a' ≤ c && c ≤ 'z') || ('A' ≤ c && c ≤ 'Z') || ('0' ≤ c && c ≤ '9')
    || c = '_' || c = '-' || c = '.')

/-- One character of the `re.sub` replacement: characters outside the class
become an underscore. -/
def volumeNameChar (c : Char) : Char :=
  if isVolumeNameChar c then c else '_'

/-- The character-list form of `sanitize_for_volume_name`: replace every
character outside the class, then truncate to 50 characters (`[:50]`). -/
def sanitizeVolumeChars (l : List Char) : List Char :=
  (l.map volumeNameChar).take 50

/-- Embeds `sanitize_for_volume_name` from `src/core/docker_runner.py`
lines 36-38: `re.sub` of every character outside `[a-zA-Z0-9_\-.]` with an
underscore, truncated to 50 characters. -/
def sanitize_for_volume_name (name : String) : String :=
  ⟨sanitizeVolumeChars name.data⟩

/-- Embeds `get_session_volume_name` from `src/core/docker_runner.py`
lines 40-41: the literal session-volume prefix (the constant
`SESSION_VOLUME_PREFIX = "sandbox_session_"` of line 24) followed by the
sanitized session id. -/
def get_session_volume_name (session_id : String) : String :=
  "sandbox_session_" ++ sanitize_for_volume_name session_id

/-- Embeds `sanitize_session_id` from `src/models/execution.py` lines 9-12:
the same regular-expression substitution and 50-character truncation as
`sanitize_for_volume_name`. -/
def sanitize_session_id (session_id : String) : String :=
  ⟨sanitizeVolumeChars session_id.data⟩

/-! Section: directory-listing parse (`src/api/files.py` lines 107-123)

The listing endpoint runs `cd <abs> && ls -pA --full-time` (line 85; `-p`
marks directories with a trailing slash) and then iterates over
`stdout_str.strip().splitlines()`.  The loop below is embedded at the level
of that line list. -/

/-- The two entry types of the `FileEntry` model
(`src/models/files.py` lines 6-9): the `type` field is
`Literal["file", "directory"]`. -/
inductive EntryType where
  | file
  | directory
deriving DecidableEq, Repr

/-- Embeds the `FileEntry` pydantic model (`src/models/files.py`). -/
structure FileEntry where
  name : String
  type : EntryType
deriving DecidableEq, Repr

/-- One iteration of the parse loop in `list_directory`
(`src/api/files.py` lines 111-123): empty lines are skipped; a line whose
last character is a slash is a directory entry named by the line without
that final character (`line[:-1]`); every other line is a file entry named
by the whole line; entries named "." or ".." are skipped. -/
def classifyLsLine (line : String) : Option FileEntry :=
  if line = "" then none
  else
    let entry : String × EntryType :=
      if line.data.getLast? = some '/' then (⟨line.data.dropLast⟩, EntryType.directory)
      else (line, EntryType.file)
    if entry.1 = "." ∨ entry.1 = ".." then none
    else some ⟨entry.1, entry.2⟩

/-- The whole parse loop of `list_directory`: the entries collected from
the stdout lines in order. -/
def parse_ls_lines (lines : List String) : List FileEntry :=
  lines.filterMap classifyLsLine

/-! Section: chart execution script (`src/core/scripting.py` lines 7-58)

`create_execution_script` splices the user code into a fixed template.  The
template is a straight-line program whose control flow depends only on
whether the user code raises, whether a figure is active afterwards
(`plt.get_fignums()`), and whether `plt.savefig` succeeds; the definitions
below embed the operational behaviour of that fixed template as a function
of those three outcomes. -/

/-- The behaviour of the spliced user code and of `plt.savefig` inside one
run of the generated chart script: whether the user code raises (and with
which exception message), whether a figure is active after it, and whether
`plt.savefig` raises (and with which message). -/
structure ChartUserBehavior where
  raisesMsg : Option String
  hasPlot : Bool
  saveFails : Option String
deriving DecidableEq, Repr

/-- The arguments of the `plt.savefig` call made by the generated script. -/
structure SaveCall where
  path : String
  format : String
  bbox_inches : String
deriving DecidableEq, Repr

/-- The observable outcome of one run of the generated chart script. -/
structure ChartScriptResult where
  exitCode : Nat
  stdoutLines : List String
  stderrLines : List String
  saveCall : Option SaveCall
  figuresClosed : Bool
deriving DecidableEq, Repr

/-- Embeds the run of the program produced by `create_execution_script`
(`src/core/scripting.py` lines 12-58):

* start marker on stdout; the user code runs inside `try`; on any exception
  the message is printed to stderr and the script exits 1 (the save block -
  and with it the `finally` that calls `plt.close`, lines 52-53 - is never
  reached);
* otherwise the save block runs: when `plt.get_fignums()` is nonempty,
  `plt.savefig(output_path, format="png", bbox_inches="tight")` is called
  with `output_path = output_filename` unchanged (line 40); a save
  exception prints its message to stderr and exits 3; when no figure is
  active a notice is printed to stderr and execution continues (the
  `sys.exit(2)` of line 47 is commented out in the source);
* the `finally` of the save block closes all figures on every exit from it;
* the script then prints the finish marker and exits 0. -/
def chartScriptRun (output_filename : String) (b : ChartUserBehavior) : ChartScriptResult :=
  let startLine := "--- Starting User Code Execution ---"
  match b.raisesMsg with
  | some msg =>
      { exitCode := 1
        stdoutLines := [startLine]
        stderrLines := ["Error during user code execution: " ++ msg]
        saveCall := none
        figuresClosed := false }
  | none =>
      let doneLine := "--- User Code Finished ---"
      let savingLine := "Saving plot to " ++ output_filename ++ "..."
      if b.hasPlot then
        match b.saveFails with
        | none =>
            { exitCode := 0
              stdoutLines := [startLine, doneLine, savingLine, "Plot saved successfully.",
                "--- Script Finished Successfully ---"]
              stderrLines := []
              saveCall := some ⟨output_filename, "png", "tight"⟩
              figuresClosed := true }
        | some msg =>
            { exitCode := 3
              stdoutLines := [startLine, doneLine, savingLine]
              stderrLines := ["Error saving plot: " ++ msg]
              saveCall := some ⟨output_filename, "png", "tight"⟩
              figuresClosed := true }
      else
        { exitCode := 0
          stdoutLines := [startLine, doneLine, "--- Script Finished Successfully ---"]
          stderrLines := ["No matplotlib plot detected to save."]
          saveCall := none
          figuresClosed := true }

/-! Section: volume registry (`src/core/docker_runner.py` lines 43-60)

The engine is modelled as an oracle giving the outcome of the
`volumes.get` call and the outcome of the `volumes.create` call that the
function may make; the call log records how often each was invoked and
with which driver the create was issued. -/

/-- Decidable equality for `Except` values with decidable components. -/
instance {ε α : Type} [DecidableEq ε] [DecidableEq α] : DecidableEq (Except ε α) := fun x y =>
  match x, y with
  | .ok a, .ok b =>
      if h : a = b then .isTrue (by rw [h])
      else .isFalse (by intro he; cases he; exact h rfl)
  | .error a, .error b =>
      if h : a = b then .isTrue (by rw [h])
      else .isFalse (by intro he; cases he; exact h rfl)
  | .ok _, .error _ => .isFalse (by intro h; cases h)
  | .error _, .ok _ => .isFalse (by intro h; cases h)

/-- Outcome of the `docker_client.volumes.get(volume_name)` call. -/
inductive VolGetOutcome where
  | found (volumeName : String)
  | notFound
  | apiError (msg : String)
  | otherError (msg : String)
deriving DecidableEq, Repr

/-- Outcome of the `docker_client.volumes.create(...)` call. -/
inductive VolCreateOutcome where
  | created (volumeName : String)
  | apiError (msg : String)
  | otherError (msg : String)
deriving DecidableEq, Repr

/-- The engine oracle for one `get_or_create_session_volume` call. -/
structure VolumeEngine where
  getOutcome : VolGetOutcome
  createOutcome : VolCreateOutcome
deriving DecidableEq, Repr

/-- Result and call log of one `get_or_create_session_volume` call:
the returned volume (or the raised `HTTPException`), the number of
`volumes.get` calls, the number of `volumes.create` calls, and the driver
passed to the create call when one was issued. -/
structure VolumeCallLog where
  result : Except HTTPError String
  requestedName : Option String
  getCalls : Nat
  createCalls : Nat
  createdDriver : Option String
deriving DecidableEq, Repr

/-- Embeds `get_or_create_session_volume` from `src/core/docker_runner.py`
lines 43-60.  Both engine calls address the name
`get_session_volume_name session_id`.  `volumes.get` is tried first; on
`NotFound` a single `volumes.create(name, driver="local")` is issued; an
`APIError` or other exception of either call is mapped to an HTTP 500 and
no call is ever retried. -/
def get_or_create_session_volume (clientAvailable : Bool) (session_id : String)
    (eng : VolumeEngine) : VolumeCallLog :=
  if clientAvailable = false then
    { result := .error ⟨500, "Docker client not available"⟩
      requestedName := none, getCalls := 0, createCalls := 0, createdDriver := none }
  else
    let volume_name := get_session_volume_name session_id
    match eng.getOutcome with
    | .found v =>
        { result := .ok v, requestedName := some volume_name
          getCalls := 1, createCalls := 0, createdDriver := none }
    | .notFound =>
        match eng.createOutcome with
        | .created v =>
            { result := .ok v, requestedName := some volume_name
              getCalls := 1, createCalls := 1, createdDriver := some "local" }
        | .apiError m =>
            { result := .error ⟨500, "Failed to create session volume: " ++ m⟩
              requestedName := some volume_name
              getCalls := 1, createCalls := 1, createdDriver := some "local" }
        | .otherError _ =>
            { result := .error ⟨500, "Unexpected error during volume creation."⟩
              requestedName := some volume_name
              getCalls := 1, createCalls := 1, createdDriver := some "local" }
    | .apiError m =>
        { result := .error ⟨500, "Failed to get session volume: " ++ m⟩
          requestedName := some volume_name
          getCalls := 1, createCalls := 0, createdDriver := none }
    | .otherError _ =>
        { result := .error ⟨500, "Unexpected error during volume retrieval."⟩
          requestedName := some volume_name
          getCalls := 1, createCalls := 0, createdDriver := none }

/-! Section: container runner (`src/core/docker_runner.py` lines 63-172) -/

/-- Python truthiness of the optional `session_id` argument: the branches
`if session_id:` of the runner fire only for a present, nonempty string. -/
def sessionIdTruthy (session_id : Option String) : Bool :=
  match session_id with
  | none => false
  | some s => s ≠ ""

/-- Embeds `user_base` of `src/core/docker_runner.py` line 92: the user-install
base inside the workspace volume; built from the workspace-root constant,
not from the `working_dir` argument. -/
def sessionUserBase : String := WORKSPACE_DIR_INSIDE_CONTAINER ++ "/.local"

/-- The default `PATH` of line 96: the user bin directory prepended to the
standard Linux path. -/
def sessionDefaultPath : String :=
  sessionUserBase ++ "/bin:/usr/local/sbin:/usr/local/bin:/usr/sbin:/usr/bin:/sbin:/bin"

/-- Embeds the `final_environment` computation of `run_in_container`
(`src/core/docker_runner.py` lines 88-103) as a lookup function: the
defaults `PYTHONUSERBASE` and `PATH` are present when `session_id` is
truthy, and the caller-supplied mapping overrides them key by key
(`final_environment.update(environment)`). -/
def finalEnvironment (session_id : Option String)
    (environment : Option (List (String × String))) : String → Option String :=
  fun k =>
    match (environment.getD []).lookup k with
    | some v => some v
    | none =>
        if sessionIdTruthy session_id then
          if k = "PYTHONUSERBASE" then some sessionUserBase
          else if k = "PATH" then some sessionDefaultPath
          else none
        else none

/-- A `temp_volumes` mapping value: `{bind: <path>, mode: <mode>}`. -/
structure VolumeSpec where
  bind : String
  mode : String
deriving DecidableEq, Repr

/-- The arguments of a `run_in_container` call
(`src/core/docker_runner.py` lines 63-72). -/
structure RunArgs where
  command : List String
  session_id : Option String
  image : String
  working_dir : String
  temp_volumes : List (String × VolumeSpec)
  environment : Option (List (String × String))
  timeout : Nat
  network_mode : String
  mem_limit : String
deriving Repr

/-- Outcome of the `docker_client.containers.run(...)` call.  The container
variable is assigned only when the call returns, so on any of the failure
outcomes no container exists. -/
inductive RunCreateOutcome where
  | created
  | imageNotFound
  | apiError (msg : String)
  | typeError (msg : String)
  | otherError (msg : String)
deriving DecidableEq, Repr

/-- Outcome of the `container.wait(timeout=...)` call; `exited` carries the
optional `StatusCode` field of the returned mapping
(`result.get("StatusCode", -1)`). -/
inductive WaitOutcome where
  | exited (statusCode : Option Int)
  | readTimeout
  | connectionError
  | apiError (msg : String)
deriving DecidableEq, Repr

/-- Outcome of the two `container.logs(...)` calls; `collected` carries the
UTF-8-with-replacement decodings of the stdout and stderr byte streams. -/
inductive LogsOutcome where
  | collected (stdoutText stderrText : String)
  | apiError (msg : String)
deriving DecidableEq, Repr

/-- The engine oracle for one `run_in_container` call: availability of the
module-level docker client, the volume-registry oracle, and the outcome of
each container call the function may make.  `removeOk` tells whether the
`container.remove(force=True)` call of the `finally` block succeeds. -/
structure ContainerEngine where
  clientAvailable : Bool
  volume : VolumeEngine
  runOutcome : RunCreateOutcome
  waitOutcome : WaitOutcome
  logsOutcome : LogsOutcome
  removeOk : Bool
deriving DecidableEq, Repr

/-- The observable result of one `run_in_container` call: the returned
`(exit_code, stdout, stderr)` triple or the raised `HTTPException`, whether
a container was created, whether `container.remove(force=True)` was
attempted in the `finally` block, whether the log-collection step was
reached, and the computed `final_environment` lookup (absent only when the
client-availability guard fired before it was built). -/
structure RunResult where
  outcome : Except HTTPError (Int × String × String)
  containerCreated : Bool
  removeAttempted : Bool
  logsReached : Bool
  finalEnv : Option (String → Option String)

/-- The session-volume preparation step of `run_in_container`
(`src/core/docker_runner.py` lines 105-118): a truthy `session_id` fetches
the session volume through `get_or_create_session_volume` - whose
`HTTPException` propagates thanks to the `except HTTPException: raise` of
line 117 - and a `temp_volumes` bind equal to `working_dir` raises the
mount-conflict HTTP 500.  All of this happens before any container
exists. -/
def sessionVolumePrep (args : RunArgs) (eng : ContainerEngine) : Except HTTPError Unit :=
  if sessionIdTruthy args.session_id then
    match (get_or_create_session_volume true ((args.session_id).getD "") eng.volume).result with
    | .error e => .error e
    | .ok _ =>
        if (args.temp_volumes.map (fun t => t.2.bind)).contains args.working_dir then
          .error ⟨500, "Volume mount configuration conflict."⟩
        else .ok ()
  else .ok ()

/-- Embeds `run_in_container` from `src/core/docker_runner.py` lines
63-172:

* the client guard (lines 78-80) raises HTTP 500 before anything else;
* `final_environment` is computed (lines 88-103) and the volume map is
  prepared (`sessionVolumePrep`), all before any container exists;
* `containers.run` failures map to HTTP 500 errors (lines 163-166) with no
  container to remove;
* a `ReadTimeout` or `ConnectionError` in `container.wait` raises
  `HTTPException(408, ...)` (line 149), which the blanket
  `except Exception` of line 166 catches and replaces with the generic
  HTTP 500, skipping log collection; an `APIError` in the wait leaves the
  exit code at -1 and continues;
* log collection keeps the streams empty on `APIError` and never overwrites
  the exit code;
* the `finally` block (lines 167-172) attempts a forced removal whenever a
  container was created and swallows every removal failure. -/
def run_in_container (args : RunArgs) (eng : ContainerEngine) : RunResult :=
  if eng.clientAvailable = false then
    { outcome := .error ⟨500, "Docker client not available"⟩
      containerCreated := false, removeAttempted := false, logsReached := false
      finalEnv := none }
  else
    match sessionVolumePrep args eng with
    | .error e =>
        { outcome := .error e
          containerCreated := false, removeAttempted := false, logsReached := false
          finalEnv := some (finalEnvironment args.session_id args.environment) }
    | .ok _ =>
        match eng.runOutcome with
        | .imageNotFound =>
            { outcome := .error ⟨500,
                "Execution environment image " ++ args.image ++ " not found."⟩
              containerCreated := false, removeAttempted := false, logsReached := false
              finalEnv := some (finalEnvironment args.session_id args.environment) }
        | .apiError m =>
            { outcome := .error ⟨500, "Docker API error: " ++ m⟩
              containerCreated := false, removeAttempted := false, logsReached := false
              finalEnv := some (finalEnvironment args.session_id args.environment) }
        | .typeError _ =>
            { outcome := .error ⟨500,
                "Server configuration error: Invalid argument passed to Docker run."⟩
              containerCreated := false, removeAttempted := false, logsReached := false
              finalEnv := some (finalEnvironment args.session_id args.environment) }
        | .otherError _ =>
            { outcome := .error ⟨500, "An unexpected server error occurred."⟩
              containerCreated := false, removeAttempted := false, logsReached := false
              finalEnv := some (finalEnvironment args.session_id args.environment) }
        | .created =>
            match eng.waitOutcome with
            | .readTimeout =>
                { outcome := .error ⟨500, "An unexpected server error occurred."⟩
                  containerCreated := true, removeAttempted := true, logsReached := false
                  finalEnv := some (finalEnvironment args.session_id args.environment) }
            | .connectionError =>
                { outcome := .error ⟨500, "An unexpected server error occurred."⟩
                  containerCreated := true, removeAttempted := true, logsReached := false
                  finalEnv := some (finalEnvironment args.session_id args.environment) }
            | .exited sc =>
                match eng.logsOutcome with
                | .collected o e =>
                    { outcome := .ok (sc.getD (-1), o, e)
                      containerCreated := true, removeAttempted := true, logsReached := true
                      finalEnv := some (finalEnvironment args.session_id args.environment) }
                | .apiError _ =>
                    { outcome := .ok (sc.getD (-1), "", "")
                      containerCreated := true, removeAttempted := true, logsReached := true
                      finalEnv := some (finalEnvironment args.session_id args.environment) }
            | .apiError _ =>
                match eng.logsOutcome with
                | .collected o e =>
                    { outcome := .ok (-1, o, e)
                      containerCreated := true, removeAttempted := true, logsReached := true
                      finalEnv := some (finalEnvironment args.session_id args.environment) }
                | .apiError _ =>
                    { outcome := .ok (-1, "", "")
                      containerCreated := true, removeAttempted := true, logsReached := true
                      finalEnv := some (finalEnvironment args.session_id args.environment) }

/-- Split a character list at every occurrence of a separator character;
`acc` holds the characters of the current field in reverse. -/
def splitOnCharAux (sep : Char) : List Char → List Char → List String
  | [], acc => [⟨acc.reverse⟩]
  | c :: rest, acc =>
      if c = sep then (⟨acc.reverse⟩ : String) :: splitOnCharAux sep rest []
      else splitOnCharAux sep rest (c :: acc)

/-- The colon-separated entries of a `PATH` value. -/
def pathEntries (s : String) : List String := splitOnCharAux ':' s.data []

/-- A concrete stateless call whose wait phase times out: the shell probe
of the timeout scenario (spec scenario 6), run with the default image and
workspace working directory and a 2-second timeout. -/
def timeoutProbeArgs : RunArgs :=
  { command := ["bash", "-c", "set -e; set -o pipefail; sleep 999"]
    session_id := none
    image := "python-chart-sandbox:latest"
    working_dir := WORKSPACE_DIR_INSIDE_CONTAINER
    temp_volumes := []
    environment := none
    timeout := 2
    network_mode := "bridge"
    mem_limit := "256m" }

/-- An engine behaviour in which the container starts, the wait raises
`ReadTimeout`, and the logs of the partial run would be retrievable. -/
def timeoutProbeEngine : ContainerEngine :=
  { clientAvailable := true
    volume := { getOutcome := .notFound, createOutcome := .created "v" }
    runOutcome := .created
    waitOutcome := .readTimeout
    logsOutcome := .collected "partial output" ""
    removeOk := true }

/-- A session call with a non-default working directory, used to probe the
environment defaults. -/
def envProbeArgs : RunArgs :=
  { command := ["python", "script.py"]
    session_id := some "s1"
    image := "python-chart-sandbox:latest"
    working_dir := "/data"
    temp_volumes := []
    environment := none
    timeout := 60
    network_mode := "none"
    mem_limit := "256m" }

/-- A fully successful engine behaviour for the environment probe. -/
def envProbeEngine : ContainerEngine :=
  { clientAvailable := true
    volume := { getOutcome := .found "sandbox_session_s1", createOutcome := .created "v" }
    runOutcome := .created
    waitOutcome := .exited (some 0)
    logsOutcome := .collected "" ""
    removeOk := true }

/-! Section: helper lemmas -/

theorem isVolumeNameChar_volumeNameChar (c : Char) :
    isVolumeNameChar (volumeNameChar c) = true := by
  unfold volumeNameChar
  split
  · assumption
  · decide

theorem volumeNameChar_idem (c : Char) :
    volumeNameChar (volumeNameChar c) = volumeNameChar c := by
  by_cases h : isVolumeNameChar c <;> simp [volumeNameChar, h]

theorem sanitizeVolumeChars_all (l : List Char) :
    (sanitizeVolumeChars l).all isVolumeNameChar = true := by
  rw [List.all_eq_true]
  intro c hc
  have hc2 : c ∈ l.map volumeNameChar := List.mem_of_mem_take hc
  obtain ⟨a, _, rfl⟩ := List.mem_map.1 hc2
  exact isVolumeNameChar_volumeNameChar a

theorem sanitizeVolumeChars_length (l : List Char) :
    (sanitizeVolumeChars l).length ≤ 50 := by
  simp [sanitizeVolumeChars]

theorem sanitizeVolumeChars_idem (l : List Char) :
    sanitizeVolumeChars (sanitizeVolumeChars l) = sanitizeVolumeChars l := by
  unfold sanitizeVolumeChars
  rw [List.map_take, List.take_take, Nat.min_self, List.map_map]
  exact congrArg _ (List.map_congr_left fun c _ => volumeNameChar_idem c)

/-! Section: claim theorems -/

/-- Claim C1 (code bug): path resolution is claimed to accept "" and "."
with the workspace root and to reject the four traversal probes with
`InvalidPath`.  In the code, every call - the two that must be accepted
included - fails with HTTP 400, because `PurePosixPath` has no `resolve`
method and the resulting `AttributeError` is swallowed by the blanket
`except Exception` handler.  This theorem evaluates the embedded function
at all six probe paths of the claim: each one yields the generic 400
format-or-resolution error. -/
theorem path_resolution_rejects_all_probe_paths :
    validate_and_resolve_path "s1" "" =
      .error ⟨400, "Invalid path format or resolution error for .."⟩ ∧
    validate_and_resolve_path "s1" "." =
      .error ⟨400, "Invalid path format or resolution error for .."⟩ ∧
    validate_and_resolve_path "s1" ".." =
      .error ⟨400, "Invalid path format or resolution error for ..."⟩ ∧
    validate_and_resolve_path "s1" "../x" =
      .error ⟨400, "Invalid path format or resolution error for ../x."⟩ ∧
    validate_and_resolve_path "s1" "/etc/passwd" =
      .error ⟨400, "Invalid path format or resolution error for /etc/passwd."⟩ ∧
    validate_and_resolve_path "s1" "/workspace/../etc/x" =
      .error ⟨400, "Invalid path format or resolution error for /workspace/../etc/x."⟩ := by
  exact ⟨rfl, rfl, rfl, rfl, rfl, rfl⟩

/-- Claim C2 (code bug): the claim characterizes the paths on which
`validate_and_resolve_path` succeeds, but in the code no call ever
succeeds: for every session id and user path the function returns an HTTP
400 error, so the set of accepted paths - which the specification says
contains "" and "." - is empty. -/
theorem path_resolution_never_succeeds (session_id user_path : String) :
    ∃ e, validate_and_resolve_path session_id user_path = .error e ∧ e.status = 400 := by
  by_cases h : user_path = "" <;>
    simp [validate_and_resolve_path, purePosixPathResolveAttr, h]

/-- Claim C3 (confirmed): over every engine behaviour, the forced removal
of the `finally` block is attempted exactly when a container was created -
on the normal path, the timeout path, the wait and log `APIError` paths,
and every raising path - and the entire observable result of
`run_in_container` is unchanged by whether the removal itself succeeds or
fails. -/
theorem runner_container_removed_on_every_exit_path (args : RunArgs) (eng : ContainerEngine) :
    ((run_in_container args eng).removeAttempted = (run_in_container args eng).containerCreated) ∧
    (∀ b : Bool, run_in_container args { eng with removeOk := b } = run_in_container args eng) := by
  constructor
  · unfold run_in_container
    repeat' split
    all_goals rfl
  · intro b
    cases eng
    rfl

/-- Claim C4 (code bug): when the wait phase times out (or the connection
drops), the code raises the intended HTTP 408, but its own blanket
`except Exception` handler catches it and replaces it with the generic
HTTP 500, and log collection is skipped; only the teardown still runs.
Evaluated at a concrete timed-out run: the outcome is the 500 error and not
the 408, `logsReached` is false, and the removal was attempted. -/
theorem runner_timeout_yields_500_and_skips_collection :
    (run_in_container timeoutProbeArgs timeoutProbeEngine).outcome =
      .error ⟨500, "An unexpected server error occurred."⟩ ∧
    ¬ (run_in_container timeoutProbeArgs timeoutProbeEngine).outcome =
      .error ⟨408, "Container execution timed out after 2 seconds."⟩ ∧
    (run_in_container timeoutProbeArgs timeoutProbeEngine).logsReached = false ∧
    (run_in_container timeoutProbeArgs timeoutProbeEngine).removeAttempted = true ∧
    (run_in_container timeoutProbeArgs
        { timeoutProbeEngine with waitOutcome := .connectionError }).outcome =
      .error ⟨500, "An unexpected server error occurred."⟩ := by
  refine ⟨rfl, ?_, rfl, rfl, rfl⟩
  decide

/-- Claim C5, counterexample: a run of the generated chart script in which
the user code raises nothing and produces no plot exits with status 0, not
with status 2 as claimed - the `sys.exit(2)` of the template is commented
out in the source. -/
theorem chart_script_no_plot_exits_zero_not_two :
    ¬ (chartScriptRun "output.png"
        { raisesMsg := none, hasPlot := false, saveFails := none }).exitCode = 2 ∧
    (chartScriptRun "output.png"
        { raisesMsg := none, hasPlot := false, saveFails := none }).exitCode = 0 := by
  decide

/-- Claim C5, amended: the generated chart script exits 1 with the
exception message on stderr when the user code raises (without reaching the
figure-closing `finally`); exits 0 - not 2 - with a stderr notice when no
plot was produced; exits 3 when saving fails; and exits 0 on full success
after saving the first active plot to the output filename as PNG with
`bbox_inches` tight; all open figures are closed on every exit from the
saving phase. -/
theorem chart_script_behavior (fn msg : String) (hp : Bool) (sf : Option String) :
    chartScriptRun fn { raisesMsg := some msg, hasPlot := hp, saveFails := sf } =
      { exitCode := 1
        stdoutLines := ["--- Starting User Code Execution ---"]
        stderrLines := ["Error during user code execution: " ++ msg]
        saveCall := none
        figuresClosed := false } ∧
    chartScriptRun fn { raisesMsg := none, hasPlot := false, saveFails := sf } =
      { exitCode := 0
        stdoutLines := ["--- Starting User Code Execution ---", "--- User Code Finished ---",
          "--- Script Finished Successfully ---"]
        stderrLines := ["No matplotlib plot detected to save."]
        saveCall := none
        figuresClosed := true } ∧
    chartScriptRun fn { raisesMsg := none, hasPlot := true, saveFails := some msg } =
      { exitCode := 3
        stdoutLines := ["--- Starting User Code Execution ---", "--- User Code Finished ---",
          "Saving plot to " ++ fn ++ "..."]
        stderrLines := ["Error saving plot: " ++ msg]
        saveCall := some ⟨fn, "png", "tight"⟩
        figuresClosed := true } ∧
    chartScriptRun fn { raisesMsg := none, hasPlot := true, saveFails := none } =
      { exitCode := 0
        stdoutLines := ["--- Starting User Code Execution ---", "--- User Code Finished ---",
          "Saving plot to " ++ fn ++ "...", "Plot saved successfully.",
          "--- Script Finished Successfully ---"]
        stderrLines := []
        saveCall := some ⟨fn, "png", "tight"⟩
        figuresClosed := true } := by
  exact ⟨rfl, rfl, rfl, rfl⟩

/-- Claim C6, counterexample: a listing line with a trailing at sign is
classified as a file named by the whole line - the entry with the marker
stripped and type link claimed by the specification is not produced (the
`FileEntry` model has no link type at all, and the probe uses `ls -pA`,
which does not decorate symlinks). -/
theorem listing_trailing_at_sign_gives_file :
    ¬ (⟨"sub", EntryType.file⟩ : FileEntry) ∈ parse_ls_lines ["sub@"] ∧
    parse_ls_lines ["sub@"] = [{ name := "sub@", type := EntryType.file }] := by
  decide

/-- Claim C6, amended: every entry returned by the listing parse has type
directory or file (the only two types of the `FileEntry` model), is not
named "." or "..", and originates from a stdout line: a directory entry
from its name followed by a slash (the stripped marker), a file entry from
a line equal to its name unchanged. -/
theorem listing_parse_classification (lines : List String) (e : FileEntry)
    (h : e ∈ parse_ls_lines lines) :
    (e.type = EntryType.directory ∨ e.type = EntryType.file) ∧
    e.name ≠ "." ∧ e.name ≠ ".." ∧
    (e.type = EntryType.directory → (e.name ++ "/") ∈ lines) ∧
    (e.type = EntryType.file → e.name ∈ lines) := by
  obtain ⟨line, hline, hcl⟩ := List.mem_filterMap.1 h
  unfold classifyLsLine at hcl
  split at hcl
  · exact absurd hcl (by simp)
  · rename_i hne
    by_cases hslash : line.data.getLast? = some '/'
    · simp only [hslash, if_pos] at hcl
      split at hcl
      · exact absurd hcl (by simp)
      · rename_i hdots
        injection hcl with hcl2
        subst hcl2
        push_neg at hdots
        refine ⟨Or.inl rfl, hdots.1, hdots.2, fun _ => ?_,
          fun habs => EntryType.noConfusion habs⟩
        have hstr : (⟨line.data.dropLast⟩ : String) ++ "/" = line := by
          apply String.ext
          show line.data.dropLast ++ ['/'] = line.data
          exact List.dropLast_append_getLast? '/' (Option.mem_def.2 hslash)
        rw [hstr]
        exact hline
    · simp only [hslash, if_neg, if_false] at hcl
      split at hcl
      · exact absurd hcl (by simp)
      · rename_i hdots
        injection hcl with hcl2
        subst hcl2
        push_neg at hdots
        exact ⟨Or.inr rfl, hdots.1, hdots.2,
          fun habs => EntryType.noConfusion habs, fun _ => hline⟩

/-- Witness for the amended claim C6, at the single-line listing of one
directory entry. -/
theorem listing_parse_classification_witness :
    (EntryType.directory = EntryType.directory ∨ EntryType.directory = EntryType.file) ∧
    ("sub" : String) ≠ "." ∧ ("sub" : String) ≠ ".." ∧
    (EntryType.directory = EntryType.directory → (("sub" : String) ++ "/") ∈ ["sub/"]) ∧
    (EntryType.directory = EntryType.file → ("sub" : String) ∈ ["sub/"]) := by
  exact listing_parse_classification ["sub/"] ⟨"sub", EntryType.directory⟩ (by decide)

/-- Claim C7, counterexample: a session call with working directory `/data`
still receives `PYTHONUSERBASE=/workspace/.local` - the default is built
from the workspace-root constant, not from the `working_dir` argument as
claimed. -/
theorem session_env_defaults_ignore_working_dir :
    envProbeArgs.working_dir = "/data" ∧
    (run_in_container envProbeArgs envProbeEngine).finalEnv =
      some (finalEnvironment (some "s1") none) ∧
    finalEnvironment (some "s1") none "PYTHONUSERBASE" = some "/workspace/.local" ∧
    ¬ finalEnvironment (some "s1") none "PYTHONUSERBASE" = some ("/data" ++ "/.local") := by
  refine ⟨rfl, rfl, by decide, by decide⟩

/-- Claim C7, amended: with a truthy session id, the environment injected
into the container maps `PYTHONUSERBASE` to `/workspace/.local` and gives a
`PATH` whose first entry is `/workspace/.local/bin` - both built from the
workspace-root constant, independent of `working_dir` - unless the caller
supplied those keys; every caller-supplied key overrides its default, and
whenever the docker client is available the environment passed to the
container is exactly this merge. -/
theorem session_env_default_injection (sid : String) (hsid : sid ≠ "")
    (userEnv : List (String × String)) (k v : String) :
    (userEnv.lookup k = some v → finalEnvironment (some sid) (some userEnv) k = some v) ∧
    (userEnv.lookup "PYTHONUSERBASE" = none →
      finalEnvironment (some sid) (some userEnv) "PYTHONUSERBASE" =
        some (WORKSPACE_DIR_INSIDE_CONTAINER ++ "/.local")) ∧
    (userEnv.lookup "PATH" = none →
      (pathEntries ((finalEnvironment (some sid) (some userEnv) "PATH").getD "")).head? =
        some (WORKSPACE_DIR_INSIDE_CONTAINER ++ "/.local/bin")) ∧
    (∀ args : RunArgs, ∀ eng : ContainerEngine, eng.clientAvailable = true →
      (run_in_container args eng).finalEnv =
        some (finalEnvironment args.session_id args.environment)) := by
  refine ⟨fun h => ?_, fun h => ?_, fun h => ?_, fun args eng hcl => ?_⟩
  · simp [finalEnvironment, h]
  · simp [finalEnvironment, h, sessionIdTruthy, hsid]
    rfl
  · simp [finalEnvironment, h, sessionIdTruthy, hsid]
    decide
  · unfold run_in_container
    rw [hcl]
    simp only [Bool.true_eq_false, if_false]
    repeat' split
    all_goals rfl

/-- Witness for the amended claim C7, at a concrete session and a caller
environment holding one unrelated key. -/
theorem session_env_default_injection_witness :
    finalEnvironment (some "s1") (some [("FOO", "bar")]) "FOO" = some "bar" ∧
    finalEnvironment (some "s1") (some [("FOO", "bar")]) "PYTHONUSERBASE" =
      some (WORKSPACE_DIR_INSIDE_CONTAINER ++ "/.local") ∧
    (pathEntries ((finalEnvironment (some "s1") (some [("FOO", "bar")]) "PATH").getD "")).head? =
      some (WORKSPACE_DIR_INSIDE_CONTAINER ++ "/.local/bin") ∧
    (run_in_container envProbeArgs envProbeEngine).finalEnv =
      some (finalEnvironment envProbeArgs.session_id envProbeArgs.environment) := by
  have h := session_env_default_injection "s1" (by decide) [("FOO", "bar")] "FOO" "bar"
  exact ⟨h.1 rfl, h.2.1 rfl, h.2.2.1 rfl, h.2.2.2 envProbeArgs envProbeEngine rfl⟩

/-- Claim C8, counterexample: a session id of fifty characters from the
safe alphabet sanitizes to itself, and the resulting volume name has
length 66 - the 16-character literal prefix plus 50 - exceeding the claimed
bound of 64. -/
theorem volume_name_can_exceed_64_chars :
    ¬ (get_session_volume_name
        "aaaaaaaaaaaaaaaaaaaaaaaaaaaaaaaaaaaaaaaaaaaaaaaaaa").length ≤ 64 ∧
    (get_session_volume_name
        "aaaaaaaaaaaaaaaaaaaaaaaaaaaaaaaaaaaaaaaaaaaaaaaaaa").length = 66 := by
  decide

/-- Claim C8, amended: every session-volume name is the literal prefix
followed by the session id with every character outside the safe class
replaced by an underscore and truncated to 50 characters; it is nonempty,
consists only of characters in the class, and has length at most 66 (not
64). -/
theorem volume_name_shape (s : String) :
    (get_session_volume_name s).data =
      "sandbox_session_".data ++ (s.data.map volumeNameChar).take 50 ∧
    (get_session_volume_name s).data.all isVolumeNameChar = true ∧
    0 < (get_session_volume_name s).length ∧
    (get_session_volume_name s).length ≤ 66 := by
  refine ⟨rfl, ?_, ?_, ?_⟩
  · show ("sandbox_session_".data ++ sanitizeVolumeChars s.data).all isVolumeNameChar = true
    rw [List.all_append, Bool.and_eq_true]
    exact ⟨by decide, sanitizeVolumeChars_all s.data⟩
  · show 0 < ("sandbox_session_".data ++ sanitizeVolumeChars s.data).length
    rw [List.length_append]
    have h2 : ("sandbox_session_".data).length = 16 := by decide
    omega
  · show ("sandbox_session_".data ++ sanitizeVolumeChars s.data).length ≤ 66
    rw [List.length_append]
    have h1 := sanitizeVolumeChars_length s.data
    have h2 : ("sandbox_session_".data).length = 16 := by decide
    omega

/-- Claim C9, counterexample: when the lookup answers not-found and the
create then fails with a name-collision `APIError`, the registry does not
retry the lookup and does not return the volume: it surfaces HTTP 500
after exactly one lookup. -/
theorem volume_create_conflict_not_retried :
    (get_or_create_session_volume true "S1"
        { getOutcome := .notFound,
          createOutcome := .apiError "volume name is already in use" }).result =
      .error ⟨500, "Failed to create session volume: volume name is already in use"⟩ ∧
    (get_or_create_session_volume true "S1"
        { getOutcome := .notFound,
          createOutcome := .apiError "volume name is already in use" }).getCalls = 1 ∧
    (get_or_create_session_volume true "S1"
        { getOutcome := .notFound,
          createOutcome := .apiError "volume name is already in use" }).createCalls = 1 := by
  decide

/-- Claim C9, amended: the registry asks the engine for the computed volume
name and returns a found volume; on not-found it creates the volume with
the local driver and returns it; a create `APIError` - name collisions
included - and a lookup `APIError` are each surfaced as HTTP 500, and the
lookup is never retried: no run performs more than one lookup. -/
theorem volume_registry_behavior (sid v m : String) (creat : VolCreateOutcome) :
    (get_or_create_session_volume true sid { getOutcome := .found v, createOutcome := creat }) =
      { result := .ok v, requestedName := some (get_session_volume_name sid)
        getCalls := 1, createCalls := 0, createdDriver := none } ∧
    (get_or_create_session_volume true sid
        { getOutcome := .notFound, createOutcome := .created v }) =
      { result := .ok v, requestedName := some (get_session_volume_name sid)
        getCalls := 1, createCalls := 1, createdDriver := some "local" } ∧
    (get_or_create_session_volume true sid
        { getOutcome := .notFound, createOutcome := .apiError m }) =
      { result := .error ⟨500, "Failed to create session volume: " ++ m⟩
        requestedName := some (get_session_volume_name sid)
        getCalls := 1, createCalls := 1, createdDriver := some "local" } ∧
    (get_or_create_session_volume true sid
        { getOutcome := .apiError m, createOutcome := creat }).result =
      .error ⟨500, "Failed to get session volume: " ++ m⟩ ∧
    (∀ eng : VolumeEngine, (get_or_create_session_volume true sid eng).getCalls ≤ 1) := by
  refine ⟨rfl, rfl, rfl, rfl, ?_⟩
  intro eng
  rcases eng with ⟨g, c⟩
  cases g <;> cases c <;> exact Nat.le_refl 1

/-- Claim C10 (confirmed): the session-id sanitizer is idempotent, because
its output consists only of characters of the safe class and has length at
most 50. -/
theorem sanitize_volume_name_idempotent (s : String) :
    sanitize_for_volume_name (sanitize_for_volume_name s) = sanitize_for_volume_name s ∧
    (sanitize_for_volume_name s).data.all isVolumeNameChar = true ∧
    (sanitize_for_volume_name s).length ≤ 50 := by
  refine ⟨?_, sanitizeVolumeChars_all s.data, sanitizeVolumeChars_length s.data⟩
  show (⟨sanitizeVolumeChars (sanitizeVolumeChars s.data)⟩ : String) = ⟨sanitizeVolumeChars s.data⟩
  rw [sanitizeVolumeChars_idem]

end Sandbox
